import Mathlib

/-!
Formal model of the fixed-asset accounting backend (apps/assets):
the five depreciation formulas (depreciation.py), the dispatch function,
the batch accrual loop (views.py DepreciationRecordViewSet.calculate and
tasks.py auto_calculate_depreciation), the Asset.save hook (models.py),
revaluation (views.py AssetRevaluationViewSet.perform_create), disposal
bookkeeping entries (entries.py create_disposal_entries) and the disposal
uniqueness validation (serializers.py AssetDisposalSerializer).

Money values (Python Decimal) are modelled as exact rationals; the
Decimal quantize operations are modelled explicitly (ROUND_HALF_UP and
the default ROUND_HALF_EVEN).  Intermediate Decimal divisions are exact
to 28 significant digits in Python; they are modelled as exact rational
division, which agrees after the final 2-decimal quantize on all values
considered here.
-/

namespace Buh

/-- Integer rounding of a rational, ties away from zero
(Python Decimal ROUND_HALF_UP). -/
def roundHalfAwayZ (x : ℚ) : ℤ :=
  if 0 ≤ x then ⌊x + 1/2⌋ else -⌊-x + 1/2⌋

/-- Python `Decimal.quantize(Decimal(1)/100, rounding=ROUND_HALF_UP)`:
round to two decimal places, ties away from zero. -/
def q2 (x : ℚ) : ℚ := (roundHalfAwayZ (x * 100) : ℚ) / 100

/-- Integer rounding of a rational, ties to even
(Python Decimal default rounding ROUND_HALF_EVEN). -/
def roundHalfEvenZ (x : ℚ) : ℤ :=
  if x - ⌊x⌋ < 1/2 then ⌊x⌋
  else if (1:ℚ)/2 < x - ⌊x⌋ then ⌊x⌋ + 1
  else if Even ⌊x⌋ then ⌊x⌋ else ⌊x⌋ + 1

/-- Python `Decimal.quantize(Decimal(1)/100)` with the default rounding. -/
def qE2 (x : ℚ) : ℚ := (roundHalfEvenZ (x * 100) : ℚ) / 100

/-- The rational is exactly representable with two decimal places, as every
stored monetary value is (Django DecimalField with decimal_places=2). -/
def Is2dp (x : ℚ) : Prop := (x * 100).den = 1

instance (x : ℚ) : Decidable (Is2dp x) :=
  inferInstanceAs (Decidable ((x * 100).den = 1))

lemma Is2dp.eq_num {x : ℚ} (h : Is2dp x) : x * 100 = (((x * 100).num : ℤ) : ℚ) := by
  have h1 := Rat.num_div_den (x * 100)
  rw [Is2dp] at h
  rw [h] at h1
  simpa using h1.symm

lemma roundHalfAwayZ_intCast (n : ℤ) : roundHalfAwayZ (n : ℚ) = n := by
  have h1 : ⌊(n : ℚ) + 1/2⌋ = n := by
    rw [Int.floor_int_add]
    norm_num
  have h2 : ⌊-(n : ℚ) + 1/2⌋ = -n := by
    rw [show -(n : ℚ) = ((-n : ℤ) : ℚ) by push_cast; ring, Int.floor_int_add]
    norm_num
  unfold roundHalfAwayZ
  split
  · exact h1
  · rw [h2]; ring

lemma roundHalfAwayZ_mono {x y : ℚ} (h : x ≤ y) : roundHalfAwayZ x ≤ roundHalfAwayZ y := by
  rcases le_or_lt 0 x with hx | hx
  · have hy : (0:ℚ) ≤ y := le_trans hx h
    simp only [roundHalfAwayZ, if_pos hx, if_pos hy]
    exact Int.floor_le_floor (by linarith)
  · rcases le_or_lt 0 y with hy | hy
    · simp only [roundHalfAwayZ, if_neg (not_le.mpr hx), if_pos hy]
      have h1 : (0:ℤ) ≤ ⌊-x + 1/2⌋ := Int.le_floor.mpr (by push_cast; linarith)
      have h2 : (0:ℤ) ≤ ⌊y + 1/2⌋ := Int.le_floor.mpr (by push_cast; linarith)
      omega
    · simp only [roundHalfAwayZ, if_neg (not_le.mpr hx), if_neg (not_le.mpr hy)]
      have h3 := Int.floor_le_floor (α := ℚ) (show -y + 1/2 ≤ -x + 1/2 by linarith)
      omega

lemma q2_mono {x y : ℚ} (h : x ≤ y) : q2 x ≤ q2 y := by
  unfold q2
  have h1 := roundHalfAwayZ_mono (mul_le_mul_of_nonneg_right h (by norm_num : (0:ℚ) ≤ 100))
  have h2 : ((roundHalfAwayZ (x * 100) : ℤ) : ℚ) ≤ ((roundHalfAwayZ (y * 100) : ℤ) : ℚ) := by
    exact_mod_cast h1
  linarith

lemma q2_eq_self {x : ℚ} (h : Is2dp x) : q2 x = x := by
  unfold q2
  rw [h.eq_num, roundHalfAwayZ_intCast]
  have := h.eq_num
  linarith

lemma q2_zero : q2 0 = 0 := by
  have : ((0:ℤ) : ℚ) = (0 : ℚ) * 100 := by norm_num
  unfold q2
  rw [← this, roundHalfAwayZ_intCast]
  norm_num

lemma q2_nonneg {x : ℚ} (h : 0 ≤ x) : 0 ≤ q2 x := by
  have := q2_mono h
  rwa [q2_zero] at this

lemma Is2dp.sub {x y : ℚ} (hx : Is2dp x) (hy : Is2dp y) : Is2dp (x - y) := by
  have h : (x - y) * 100 = (((x * 100).num - (y * 100).num : ℤ) : ℚ) := by
    have h1 := hx.eq_num
    have h2 := hy.eq_num
    push_cast
    linarith
  rw [Is2dp, h]
  exact Rat.den_intCast _

/-- Source: depreciation.py `calc_straight_line`.  Straight-line method. -/
def calc_straight_line (initial_cost residual_value : ℚ) (useful_life_months : ℕ)
    (incoming_depreciation : ℚ) : ℚ :=
  if useful_life_months ≤ 0 then 0
  else
    let depreciable_amount := initial_cost - residual_value - incoming_depreciation
    if depreciable_amount ≤ 0 then 0
    else q2 (depreciable_amount / (useful_life_months : ℚ))

/-- Source: depreciation.py `calc_reducing_balance`.  The geometric branch
computes `Decimal(float(ratio) ** (1.0 / float(years)))` with binary floating
point; that external primitive is abstracted as the parameter `fpow`, so every
theorem below quantifying over `fpow` holds for the actual float power too. -/
def calc_reducing_balance (fpow : ℚ → ℚ → ℚ) (initial_cost residual_value : ℚ)
    (useful_life_months : ℕ) (current_book_value : ℚ) : ℚ :=
  if useful_life_months ≤ 0 ∨ initial_cost ≤ 0 then 0
  else
    let useful_life_years : ℚ := (useful_life_months : ℚ) / 12
    if residual_value ≤ 0 then
      calc_straight_line initial_cost residual_value useful_life_months 0
    else
      let annual_rate := 1 - fpow (residual_value / initial_cost) (1 / useful_life_years)
      q2 (current_book_value * annual_rate / 12)

/-- Source: depreciation.py `calc_accelerated_reducing`. -/
def calc_accelerated_reducing (useful_life_months : ℕ) (current_book_value : ℚ) : ℚ :=
  if useful_life_months ≤ 0 then 0
  else
    let useful_life_years : ℚ := (useful_life_months : ℚ) / 12
    let annual_rate := 2 / useful_life_years
    q2 (current_book_value * annual_rate / 12)

/-- Source: depreciation.py `calc_cumulative` (sum-of-years-digits).
`months_used` is a natural number: the dispatch function always passes
`max(delta, 0)` or the caller-supplied non-negative count. -/
def calc_cumulative (initial_cost residual_value : ℚ) (useful_life_months : ℕ)
    (months_used : ℕ) (incoming_depreciation : ℚ) : ℚ :=
  if useful_life_months ≤ 0 then 0
  else
    let y0 := useful_life_months / 12
    let useful_life_years := if y0 ≤ 0 then 1 else y0
    let current_year := months_used / 12 + 1
    let remaining_years : ℤ := (useful_life_years : ℤ) - (current_year : ℤ) + 1
    if remaining_years ≤ 0 then 0
    else
      let sum_of_years := useful_life_years * (useful_life_years + 1) / 2
      let depreciable_amount := initial_cost - residual_value - incoming_depreciation
      if depreciable_amount ≤ 0 then 0
      else
        let cumulative_coefficient : ℚ := (remaining_years : ℚ) / (sum_of_years : ℚ)
        let annual := depreciable_amount * cumulative_coefficient
        q2 (annual / 12)

/-- Source: depreciation.py `calc_production`.  A `none` capacity models the
NULL database value; Python treats both None and 0 as falsy. -/
def calc_production (initial_cost residual_value : ℚ) (total_capacity : Option ℚ)
    (monthly_volume : ℚ) (incoming_depreciation : ℚ) : ℚ :=
  if total_capacity.getD 0 ≤ 0 ∨ monthly_volume = 0 then 0
  else
    let depreciable_amount := initial_cost - residual_value - incoming_depreciation
    if depreciable_amount ≤ 0 then 0
    else
      let rate_per_unit := depreciable_amount / total_capacity.getD 0
      q2 (rate_per_unit * monthly_volume)

/-- Source: models.py `Asset.DepreciationMethod` choices. -/
inductive DepreciationMethod
  | straight_line
  | reducing_balance
  | accelerated_reducing
  | cumulative
  | production
deriving DecidableEq, Repr

/-- Source: models.py `Asset.Status` choices. -/
inductive Status
  | active
  | disposed
  | conserved
deriving DecidableEq, Repr

/-- Source: models.py `Asset` — the fields the valuation engine reads or
writes.  Identification, date and text fields that never enter a computation
are omitted. -/
structure Asset where
  id : ℕ
  status : Status
  depreciation_method : DepreciationMethod
  initial_cost : ℚ
  residual_value : ℚ
  incoming_depreciation : ℚ
  current_book_value : ℚ
  accumulated_depreciation : ℚ
  useful_life_months : ℕ
  total_production_capacity : Option ℚ
deriving DecidableEq, Repr

/-- Source: models.py `Asset.save` — before persisting, if
`current_book_value` is falsy (0) or equals `initial_cost`, it is overwritten
with `initial_cost - incoming_depreciation`. -/
def Asset.save (a : Asset) : Asset :=
  if a.current_book_value = 0 ∨ a.current_book_value = a.initial_cost then
    { a with current_book_value := a.initial_cost - a.incoming_depreciation }
  else a

/-- Source: depreciation.py `calculate_monthly_depreciation`.  `months_used`
is the resolved value: the caller-supplied count, or for the cumulative
method's None default the months elapsed since `depreciation_start_date`
clamped to zero (a date-dependent non-negative number). -/
def calculate_monthly_depreciation (fpow : ℚ → ℚ → ℚ) (asset : Asset)
    (production_volume : Option ℚ) (months_used : ℕ) : ℚ :=
  let incoming := asset.incoming_depreciation
  if asset.current_book_value ≤ asset.residual_value then 0
  else
    let amount :=
      match asset.depreciation_method with
      | .straight_line =>
          calc_straight_line asset.initial_cost asset.residual_value
            asset.useful_life_months incoming
      | .reducing_balance =>
          calc_reducing_balance fpow asset.initial_cost asset.residual_value
            asset.useful_life_months asset.current_book_value
      | .accelerated_reducing =>
          calc_accelerated_reducing asset.useful_life_months asset.current_book_value
      | .cumulative =>
          calc_cumulative asset.initial_cost asset.residual_value
            asset.useful_life_months months_used incoming
      | .production =>
          calc_production asset.initial_cost asset.residual_value
            asset.total_production_capacity (production_volume.getD 0) incoming
    let max_amount := asset.current_book_value - asset.residual_value
    let clamped := if max_amount < amount then max_amount else amount
    q2 clamped

/-- Source: models.py `DepreciationRecord` — the fields written by the batch
accrual (audit/user fields omitted). -/
structure DepreciationRecord where
  asset_id : ℕ
  period_year : ℕ
  period_month : ℕ
  depreciation_method : DepreciationMethod
  amount : ℚ
  book_value_before : ℚ
  book_value_after : ℚ
deriving DecidableEq, Repr

/-- Source: views.py lines 213-215 — the existence pre-check
`DepreciationRecord.objects.filter(asset=..., period_year=..., period_month=...).exists()`. -/
def hasRecord (recs : List DepreciationRecord) (aid year month : ℕ) : Prop :=
  ∃ r ∈ recs, r.asset_id = aid ∧ r.period_year = year ∧ r.period_month = month

instance (recs : List DepreciationRecord) (aid year month : ℕ) :
    Decidable (hasRecord recs aid year month) :=
  inferInstanceAs (Decidable (∃ r ∈ recs, _ ∧ _ ∧ _))

/-- Number of stored records for one (asset, year, month) key. -/
def countRecords (recs : List DepreciationRecord) (aid year month : ℕ) : ℕ :=
  recs.countP fun r =>
    decide (r.asset_id = aid ∧ r.period_year = year ∧ r.period_month = month)

/-- Environment of one batch accrual call: the abstracted float power used by
the reducing-balance formula, the request's per-asset production volumes
(views.py line 223; a missing or falsy value becomes None at line 226), and
the per-asset resolved `months_used` for the cumulative default. -/
structure BatchEnv where
  fpow : ℚ → ℚ → ℚ
  production_volumes : ℕ → Option ℚ
  months_used : ℕ → ℕ

/-- Source: views.py lines 222-227 — the amount computed for one asset in the
batch: the request's production volume (None when absent or falsy) and the
resolved `months_used` are fed to the dispatch function. -/
def stepAmount (env : BatchEnv) (a : Asset) : ℚ :=
  let prod_vol := (env.production_volumes a.id).bind fun v =>
    if v = 0 then none else some v
  calculate_monthly_depreciation env.fpow a prod_vol (env.months_used a.id)

/-- Source: views.py lines 211-253 — the body of the per-asset loop of
`DepreciationRecordViewSet.calculate`: duplicate-period check, amount
computation, skip on non-positive amount, then atomically create the record,
mutate the asset and persist it through `Asset.save`.  Returns the updated
(records, error asset-ids) state and the asset as left in the database. -/
def calculateStep (env : BatchEnv) (year month : ℕ)
    (st : List DepreciationRecord × List ℕ) (a : Asset) :
    (List DepreciationRecord × List ℕ) × Asset :=
  let recs := st.1
  let errs := st.2
  if hasRecord recs a.id year month then ((recs, errs ++ [a.id]), a)
  else
    let amount := stepAmount env a
    if amount ≤ 0 then ((recs, errs), a)
    else
      let r : DepreciationRecord :=
        { asset_id := a.id
          period_year := year
          period_month := month
          depreciation_method := a.depreciation_method
          amount := amount
          book_value_before := a.current_book_value
          book_value_after := a.current_book_value - amount }
      let a' := Asset.save
        { a with
          accumulated_depreciation := a.accumulated_depreciation + amount
          current_book_value := a.current_book_value - amount }
      ((recs ++ [r], errs), a')

/-- Source: views.py lines 203-206 — the batch selects active assets,
optionally restricted to the requested ids. -/
def selectedForBatch (asset_ids : List ℕ) (a : Asset) : Prop :=
  a.status = Status.active ∧ (asset_ids = [] ∨ a.id ∈ asset_ids)

instance (asset_ids : List ℕ) (a : Asset) : Decidable (selectedForBatch asset_ids a) :=
  inferInstanceAs (Decidable (_ ∧ _))

/-- Source: views.py `DepreciationRecordViewSet.calculate` — the whole batch:
walks the asset table, runs `calculateStep` on each selected asset and leaves
the others untouched.  Returns the asset table after the batch together with
the final (records, errors) state. -/
def DepreciationRecordViewSet.calculate (env : BatchEnv) (year month : ℕ)
    (asset_ids : List ℕ) :
    List Asset → List DepreciationRecord × List ℕ →
    List Asset × (List DepreciationRecord × List ℕ)
  | [], st => ([], st)
  | a :: rest, st =>
    if selectedForBatch asset_ids a then
      let stepRes := calculateStep env year month st a
      let restRes := DepreciationRecordViewSet.calculate env year month asset_ids rest stepRes.1
      (stepRes.2 :: restRes.1, restRes.2)
    else
      let restRes := DepreciationRecordViewSet.calculate env year month asset_ids rest st
      (a :: restRes.1, restRes.2)

/-- Source: tasks.py `auto_calculate_depreciation` — identical loop run by the
background worker: all active assets, no id filter, no production volumes. -/
def auto_calculate_depreciation (fpow : ℚ → ℚ → ℚ) (months_used : ℕ → ℕ)
    (year month : ℕ) (assets : List Asset)
    (st : List DepreciationRecord × List ℕ) :
    List Asset × (List DepreciationRecord × List ℕ) :=
  DepreciationRecordViewSet.calculate
    { fpow := fpow, production_volumes := fun _ => none, months_used := months_used }
    year month [] assets st

/-- Source: models.py `AssetRevaluation` — the computed snapshot fields
written by `perform_create`. -/
structure AssetRevaluation where
  asset_id : ℕ
  fair_value : ℚ
  revaluation_type_upward : Bool
  old_initial_cost : ℚ
  old_depreciation : ℚ
  old_book_value : ℚ
  new_initial_cost : ℚ
  new_depreciation : ℚ
  new_book_value : ℚ
  revaluation_amount : ℚ
deriving DecidableEq, Repr

/-- Source: views.py lines 442-445 — the revaluation index
`fair_value / current_book_value`, or 1 when the book value is not positive. -/
def revaluationIndex (old_book fair_value : ℚ) : ℚ :=
  if 0 < old_book then fair_value / old_book else 1

/-- Source: views.py `AssetRevaluationViewSet.perform_create` lines 431-470:
computes the index, the new initial cost and depreciation (quantized with the
Decimal default rounding), classifies the direction, stores the snapshot and
applies the three new values to the asset, persisting through `Asset.save`. -/
def AssetRevaluationViewSet.perform_create (a : Asset) (fair_value : ℚ) :
    Asset × AssetRevaluation :=
  let old_initial := a.initial_cost
  let old_depr := a.accumulated_depreciation
  let old_book := a.current_book_value
  let index := revaluationIndex old_book fair_value
  let new_initial := qE2 (old_initial * index)
  let new_depr := qE2 (old_depr * index)
  let new_book := new_initial - new_depr
  let reval : AssetRevaluation :=
    { asset_id := a.id
      fair_value := fair_value
      revaluation_type_upward := decide (old_book < fair_value)
      old_initial_cost := old_initial
      old_depreciation := old_depr
      old_book_value := old_book
      new_initial_cost := new_initial
      new_depreciation := new_depr
      new_book_value := new_book
      revaluation_amount := new_book - old_book }
  let a' := Asset.save
    { a with
      initial_cost := new_initial
      accumulated_depreciation := new_depr
      current_book_value := new_book }
  (a', reval)

/-- Source: models.py `AssetDisposal.DisposalType` choices. -/
inductive DisposalType
  | sale
  | liquidation
  | free_transfer
  | shortage
  | other
deriving DecidableEq, Repr

/-- Source: models.py `AssetDisposal` — the fields read by
`create_disposal_entries` (document/audit fields omitted). -/
structure AssetDisposal where
  asset_id : ℕ
  disposal_type : DisposalType
  sale_amount : ℚ
  book_value_at_disposal : ℚ
  accumulated_depreciation_at_disposal : ℚ
deriving DecidableEq, Repr

/-- Source: models.py `AccountEntry` — debit/credit accounts and amount
(date, description and document fields are pure formatting and omitted). -/
structure AccountEntry where
  debit_account : String
  credit_account : String
  amount : ℚ
deriving DecidableEq, Repr

/-- Source: entries.py `create_disposal_entries` lines 163-259: up to three
rows — depreciation write-off when the accumulated depreciation is positive,
book-value write-off when the book value is positive, and sale income for a
sale with a truthy positive amount.  `account_oz` and `account_depreciation`
are the asset group's accounts. -/
def create_disposal_entries (account_oz account_depreciation : String)
    (disposal : AssetDisposal) : List AccountEntry :=
  (if 0 < disposal.accumulated_depreciation_at_disposal then
    [{ debit_account := account_depreciation
       credit_account := account_oz
       amount := disposal.accumulated_depreciation_at_disposal }]
  else []) ++
  (if 0 < disposal.book_value_at_disposal then
    [{ debit_account := "976"
       credit_account := account_oz
       amount := disposal.book_value_at_disposal }]
  else []) ++
  (if disposal.disposal_type = DisposalType.sale ∧ 0 < disposal.sale_amount then
    [{ debit_account := "377"
       credit_account := "746"
       amount := disposal.sale_amount }]
  else [])

/-- Source: serializers.py `AssetDisposalSerializer.validate_asset` lines
156-162: on creation (no bound instance), an asset that already has a
disposal is rejected with a validation error.  `existing` is the set of asset
ids that already have an AssetDisposal row; `instance_bound` tells whether the
serializer updates an existing row. -/
def AssetDisposalSerializer.validate_asset (existing : List ℕ)
    (instance_bound : Bool) (value : ℕ) : Except Unit ℕ :=
  if instance_bound = false ∧ value ∈ existing then Except.error ()
  else Except.ok value

/-- Source: views.py `AssetDisposalViewSet.perform_create` lines 166-176
guarded by the serializer validation: on success the disposal row is stored
with frozen valuation snapshots and the asset is flipped to `disposed`; a
validation error leaves every piece of state unchanged. -/
def AssetDisposalViewSet.create (existing : List ℕ) (a : Asset)
    (disposal_type : DisposalType) (sale_amount : ℚ) :
    Option (List ℕ × Asset × AssetDisposal) :=
  match AssetDisposalSerializer.validate_asset existing false a.id with
  | Except.error _ => none
  | Except.ok _ =>
    let d : AssetDisposal :=
      { asset_id := a.id
        disposal_type := disposal_type
        sale_amount := sale_amount
        book_value_at_disposal := a.current_book_value
        accumulated_depreciation_at_disposal := a.accumulated_depreciation }
    let a' := Asset.save { a with status := Status.disposed }
    some (existing ++ [a.id], a', d)

/-- A trivial batch environment for concrete runs: no production volumes,
months_used resolved to 0, and an arbitrary float power primitive. -/
def env0 : BatchEnv :=
  { fpow := fun _ _ => 0
    production_volumes := fun _ => none
    months_used := fun _ => 0 }

/-- A fresh 60-month straight-line asset worth 12000 (the spec's straight-line example). -/
def assetA : Asset :=
  { id := 1
    status := Status.active
    depreciation_method := DepreciationMethod.straight_line
    initial_cost := 12000
    residual_value := 0
    incoming_depreciation := 0
    current_book_value := 12000
    accumulated_depreciation := 0
    useful_life_months := 60
    total_production_capacity := none }

/-- A fresh 1-month straight-line asset worth 100: its single monthly accrual
equals its whole book value. -/
def asset100 : Asset :=
  { id := 1
    status := Status.active
    depreciation_method := DepreciationMethod.straight_line
    initial_cost := 100
    residual_value := 0
    incoming_depreciation := 0
    current_book_value := 100
    accumulated_depreciation := 0
    useful_life_months := 1
    total_production_capacity := none }

lemma roundHalfEvenZ_intCast (n : ℤ) : roundHalfEvenZ (n : ℚ) = n := by
  unfold roundHalfEvenZ
  rw [Int.floor_intCast]
  rw [if_pos (by norm_num : (n : ℚ) - n < 1/2)]

lemma qE2_eq_self {x : ℚ} (h : Is2dp x) : qE2 x = x := by
  unfold qE2
  rw [h.eq_num, roundHalfEvenZ_intCast]
  have := h.eq_num
  linarith

lemma q2_clamp_le {amount max : ℚ} (hmax : Is2dp max) :
    q2 (if max < amount then max else amount) ≤ max := by
  by_cases hc : max < amount
  · rw [if_pos hc, q2_eq_self hmax]
  · rw [if_neg hc]
    exact le_trans (q2_mono (not_lt.mp hc)) (le_of_eq (q2_eq_self hmax))

/-- C4.  Straight-line correctness: with a positive useful life, a positive
depreciable amount `initial_cost - residual_value - incoming_depreciation`
yields that amount divided by the life in months, rounded to two decimal
places half-up (modelled by `q2`); a non-positive depreciable amount yields 0;
and the spec's example 12000 / 60 gives exactly 200.00. -/
theorem calc_straight_line_correct (initial_cost residual_value incoming : ℚ)
    (useful_life_months : ℕ) (hm : 0 < useful_life_months) :
    (0 < initial_cost - residual_value - incoming →
      calc_straight_line initial_cost residual_value useful_life_months incoming =
        q2 ((initial_cost - residual_value - incoming) / (useful_life_months : ℚ))) ∧
    (initial_cost - residual_value - incoming ≤ 0 →
      calc_straight_line initial_cost residual_value useful_life_months incoming = 0) ∧
    calc_straight_line 12000 0 60 0 = 200 := by
  refine ⟨?_, ?_, ?_⟩
  · intro h
    simp only [calc_straight_line]
    rw [if_neg (by omega : ¬ useful_life_months ≤ 0), if_neg (by linarith)]
  · intro h
    simp only [calc_straight_line]
    rw [if_neg (by omega : ¬ useful_life_months ≤ 0), if_pos h]
  · norm_num [calc_straight_line, q2, roundHalfAwayZ]

/-- Witness for C4 at the spec's example input. -/
theorem calc_straight_line_correct_witness :
    0 < 60 ∧ calc_straight_line 12000 0 60 0 = 200 :=
  ⟨by norm_num, (calc_straight_line_correct 12000 0 0 60 (by norm_num)).2.2⟩

/-- C8.  Cumulative method: with a 60-month life and months_used 0 the
coefficient is 5/15, with months_used 48 it is 1/15, the two monthly amounts
are 416.67 and 83.33, and the year-5 amount is strictly smaller than the
year-1 amount. -/
theorem calc_cumulative_monotone :
    calc_cumulative 15000 0 60 0 0 = q2 ((15000 - 0 - 0) * ((5 : ℚ)/15) / 12) ∧
    calc_cumulative 15000 0 60 48 0 = q2 ((15000 - 0 - 0) * ((1 : ℚ)/15) / 12) ∧
    calc_cumulative 15000 0 60 0 0 = 41667/100 ∧
    calc_cumulative 15000 0 60 48 0 = 8333/100 ∧
    calc_cumulative 15000 0 60 48 0 < calc_cumulative 15000 0 60 0 0 := by
  refine ⟨?_, ?_, ?_, ?_, ?_⟩ <;>
    norm_num [calc_cumulative, q2, roundHalfAwayZ]

/-- C9.  Reducing balance degrades to straight-line whenever the residual
value is non-positive, for every possible floating-point power primitive
`fpow`: the geometric branch is never taken. -/
theorem calc_reducing_balance_degrades (fpow : ℚ → ℚ → ℚ)
    (initial_cost residual_value current_book_value : ℚ) (useful_life_months : ℕ)
    (hm : 0 < useful_life_months) (hc : 0 < initial_cost) (hr : residual_value ≤ 0) :
    calc_reducing_balance fpow initial_cost residual_value useful_life_months
        current_book_value =
      calc_straight_line initial_cost residual_value useful_life_months 0 := by
  simp only [calc_reducing_balance]
  rw [if_neg (not_or.mpr ⟨by omega, by linarith⟩), if_pos hr]

/-- Witness for C9: a 12-month asset with zero residual value. -/
theorem calc_reducing_balance_degrades_witness :
    calc_reducing_balance (fun _ _ => 0) 100 0 12 50 = calc_straight_line 100 0 12 0 :=
  calc_reducing_balance_degrades (fun _ _ => 0) 100 0 50 12 (by norm_num) (by norm_num)
    (by norm_num)

lemma calculate_monthly_depreciation_of_depreciated (fpow : ℚ → ℚ → ℚ) (a : Asset)
    (pv : Option ℚ) (mu : ℕ) (h : a.current_book_value ≤ a.residual_value) :
    calculate_monthly_depreciation fpow a pv mu = 0 := by
  simp only [calculate_monthly_depreciation]
  rw [if_pos h]

lemma calculate_monthly_depreciation_le_max (fpow : ℚ → ℚ → ℚ) (a : Asset)
    (pv : Option ℚ) (mu : ℕ) (hb : Is2dp a.current_book_value)
    (hr : Is2dp a.residual_value) (h : a.residual_value < a.current_book_value) :
    calculate_monthly_depreciation fpow a pv mu ≤
      a.current_book_value - a.residual_value := by
  simp only [calculate_monthly_depreciation]
  rw [if_neg (not_le.mpr h)]
  exact q2_clamp_le (hb.sub hr)

lemma stepAmount_le_max (env : BatchEnv) (a : Asset) (hb : Is2dp a.current_book_value)
    (hr : Is2dp a.residual_value) (h : a.residual_value < a.current_book_value) :
    stepAmount env a ≤ a.current_book_value - a.residual_value :=
  calculate_monthly_depreciation_le_max env.fpow a _ _ hb hr h

/-- C1.  Floor invariant.  For an asset whose stored values satisfy the model
invariants (two-decimal book and residual values, incoming depreciation at
most the initial cost, book value at most the initial cost): the dispatch
function returns 0 once the book value is at or below the residual value;
otherwise it returns at most `current_book_value - residual_value`; and the
asset left in the database by one batch-accrual step still satisfies
`residual_value ≤ current_book_value` whenever it did before. -/
theorem floor_invariant (fpow : ℚ → ℚ → ℚ) (pv : Option ℚ) (mu : ℕ)
    (env : BatchEnv) (year month : ℕ) (recs : List DepreciationRecord)
    (errs : List ℕ) (a : Asset)
    (hb : Is2dp a.current_book_value) (hr : Is2dp a.residual_value)
    (hinc : a.incoming_depreciation ≤ a.initial_cost)
    (hbi : a.current_book_value ≤ a.initial_cost) :
    (a.current_book_value ≤ a.residual_value →
      calculate_monthly_depreciation fpow a pv mu = 0) ∧
    (a.residual_value < a.current_book_value →
      calculate_monthly_depreciation fpow a pv mu ≤
        a.current_book_value - a.residual_value) ∧
    (a.residual_value ≤ a.current_book_value →
      a.residual_value ≤
        ((calculateStep env year month (recs, errs) a).2).current_book_value) := by
  refine ⟨calculate_monthly_depreciation_of_depreciated fpow a pv mu,
    calculate_monthly_depreciation_le_max fpow a pv mu hb hr, ?_⟩
  intro h
  simp only [calculateStep]
  by_cases hrec : hasRecord recs a.id year month
  · rw [if_pos hrec]
    exact h
  · rw [if_neg hrec]
    by_cases h0 : stepAmount env a ≤ 0
    · rw [if_pos h0]
      exact h
    · rw [if_neg h0]
      push_neg at h0
      have hne : ¬ a.current_book_value ≤ a.residual_value := by
        intro hle
        have hz : stepAmount env a = 0 :=
          calculate_monthly_depreciation_of_depreciated env.fpow a _ _ hle
        linarith
      have hlt := not_le.mp hne
      have hle := stepAmount_le_max env a hb hr hlt
      simp only [Asset.save]
      by_cases hz : a.current_book_value - stepAmount env a = 0 ∨
          a.current_book_value - stepAmount env a = a.initial_cost
      · rcases hz with hz0 | hzi
        · rw [if_pos (Or.inl hz0)]
          have hres : a.residual_value ≤ 0 := by linarith
          simp only []
          linarith
        · exfalso
          linarith
      · rw [if_neg hz]
        simp only []
        linarith

/-- Witness for C1: a fresh 60-month straight-line asset. -/
theorem floor_invariant_witness :
    Is2dp (12000 : ℚ) ∧ Is2dp (0 : ℚ) ∧
    ((0 : ℚ) ≤ 12000 →
      (0 : ℚ) ≤ ((calculateStep env0 2024 1 ([], []) assetA).2).current_book_value) := by
  refine ⟨by norm_num [Is2dp], by norm_num [Is2dp], ?_⟩
  intro h
  exact (floor_invariant env0.fpow none 0 env0 2024 1 [] [] assetA
    (by norm_num [Is2dp, assetA]) (by norm_num [Is2dp, assetA])
    (by norm_num [assetA]) (by norm_num [assetA])).2.2 (by norm_num [assetA])

/-- C10.  The save hook: saving an asset whose book value is 0 or equals the
initial cost overwrites the book value with
`initial_cost - incoming_depreciation`; consequently a batch-accrual step
whose amount drives the book value exactly to zero persists the asset with
book value `initial_cost - incoming_depreciation` instead of zero. -/
theorem asset_save_rewrites (a : Asset) (env : BatchEnv) (year month : ℕ)
    (recs : List DepreciationRecord) (errs : List ℕ)
    (hrec : ¬ hasRecord recs a.id year month)
    (hpos : 0 < stepAmount env a)
    (heq : stepAmount env a = a.current_book_value) :
    ((a.current_book_value = 0 ∨ a.current_book_value = a.initial_cost) →
      (Asset.save a).current_book_value =
        a.initial_cost - a.incoming_depreciation) ∧
    ((calculateStep env year month (recs, errs) a).2).current_book_value =
      a.initial_cost - a.incoming_depreciation := by
  constructor
  · intro hcond
    simp only [Asset.save]
    rw [if_pos hcond]
  · simp only [calculateStep]
    rw [if_neg hrec, if_neg (not_le.mpr hpos)]
    simp only [Asset.save]
    rw [if_pos (Or.inl (by linarith))]

/-- Witness for C10: the one-month asset is depreciated by its full book
value and the persisted book value bounces back to the initial cost. -/
theorem asset_save_rewrites_witness :
    ¬ hasRecord [] 1 2024 1 ∧ 0 < stepAmount env0 asset100 ∧
    ((calculateStep env0 2024 1 ([], []) asset100).2).current_book_value =
      asset100.initial_cost - asset100.incoming_depreciation := by
  have h1 : ¬ hasRecord ([] : List DepreciationRecord) 1 2024 1 := by
    simp [hasRecord]
  have h2 : stepAmount env0 asset100 = 100 := by
    norm_num [stepAmount, env0, asset100, calculate_monthly_depreciation,
      calc_straight_line, q2, roundHalfAwayZ]
  exact ⟨h1, by rw [h2]; norm_num,
    (asset_save_rewrites asset100 env0 2024 1 [] [] h1 (by rw [h2]; norm_num)
      (by rw [h2]; norm_num [asset100])).2⟩

lemma countRecords_pos_hasRecord {recs : List DepreciationRecord} {aid y m : ℕ}
    (h : 1 ≤ countRecords recs aid y m) : hasRecord recs aid y m := by
  unfold countRecords at h
  rcases List.countP_pos_iff.mp (Nat.lt_of_lt_of_le Nat.zero_lt_one h) with ⟨r, hr, hp⟩
  exact ⟨r, hr, of_decide_eq_true hp⟩

lemma calculateStep_preserves_count (env : BatchEnv) (y m : ℕ)
    (st : List DepreciationRecord × List ℕ) (b : Asset) {aid : ℕ}
    (h : 1 ≤ countRecords st.1 aid y m) :
    countRecords (calculateStep env y m st b).1.1 aid y m =
      countRecords st.1 aid y m := by
  simp only [calculateStep]
  by_cases hrec : hasRecord st.1 b.id y m
  · rw [if_pos hrec]
  · rw [if_neg hrec]
    by_cases h0 : stepAmount env b ≤ 0
    · rw [if_pos h0]
    · rw [if_neg h0]
      have hbid : b.id ≠ aid := by
        intro he
        exact hrec (he ▸ countRecords_pos_hasRecord h)
      unfold countRecords
      rw [List.countP_append]
      simp [hbid]

lemma calculate_preserves_count (env : BatchEnv) (y m : ℕ) (ids : List ℕ) (aid : ℕ) :
    ∀ (assets : List Asset) (st : List DepreciationRecord × List ℕ),
      1 ≤ countRecords st.1 aid y m →
      countRecords (DepreciationRecordViewSet.calculate env y m ids assets st).2.1 aid y m
        = countRecords st.1 aid y m
  | [], _, _ => rfl
  | a :: rest, st, h => by
    simp only [DepreciationRecordViewSet.calculate]
    by_cases hsel : selectedForBatch ids a
    · rw [if_pos hsel]
      have hstep := calculateStep_preserves_count env y m st a h
      have h' : 1 ≤ countRecords (calculateStep env y m st a).1.1 aid y m := by
        rw [hstep]; exact h
      rw [calculate_preserves_count env y m ids aid rest _ h', hstep]
    · rw [if_neg hsel]
      exact calculate_preserves_count env y m ids aid rest st h

/-- C2.  Idempotency of period accrual.  When a record for
(asset, year, month) already exists: the per-asset step reports the asset id
as an error, creates nothing and leaves the asset untouched; the batch on
`a :: rest` still processes `rest` with the same record state; any batch
run keeps the record count for that key at exactly one; and a first
invocation (no record yet, positive amount) creates exactly one record. -/
theorem accrual_idempotent (env : BatchEnv) (year month : ℕ) (asset_ids : List ℕ)
    (a : Asset) (rest assets : List Asset) (recs : List DepreciationRecord)
    (errs : List ℕ) (st : List DepreciationRecord × List ℕ)
    (hdup : hasRecord recs a.id year month)
    (hsel : selectedForBatch asset_ids a)
    (hone : countRecords st.1 a.id year month = 1) :
    calculateStep env year month (recs, errs) a = ((recs, errs ++ [a.id]), a) ∧
    DepreciationRecordViewSet.calculate env year month asset_ids (a :: rest)
        (recs, errs) =
      (a :: (DepreciationRecordViewSet.calculate env year month asset_ids rest
          (recs, errs ++ [a.id])).1,
        (DepreciationRecordViewSet.calculate env year month asset_ids rest
          (recs, errs ++ [a.id])).2) ∧
    countRecords (DepreciationRecordViewSet.calculate env year month asset_ids
        assets st).2.1 a.id year month = 1 ∧
    (∀ recs' errs', ¬ hasRecord recs' a.id year month → ¬ stepAmount env a ≤ 0 →
      countRecords (calculateStep env year month (recs', errs') a).1.1 a.id year month
        = countRecords recs' a.id year month + 1) := by
  have hstep : calculateStep env year month (recs, errs) a =
      ((recs, errs ++ [a.id]), a) := by
    simp only [calculateStep]
    rw [if_pos hdup]
  refine ⟨hstep, ?_, ?_, ?_⟩
  · simp only [DepreciationRecordViewSet.calculate]
    rw [if_pos hsel, hstep]
  · rw [calculate_preserves_count env year month asset_ids a.id assets st (by omega)]
    exact hone
  · intro recs' errs' hrec h0
    simp only [calculateStep]
    rw [if_neg hrec, if_neg h0]
    unfold countRecords
    rw [List.countP_append]
    simp

/-- An already-stored accrual record for (asset 1, 2024, 01). -/
def rec0 : DepreciationRecord :=
  { asset_id := 1
    period_year := 2024
    period_month := 1
    depreciation_method := DepreciationMethod.straight_line
    amount := 200
    book_value_before := 12000
    book_value_after := 11800 }

/-- Witness for C2: re-running the accrual for the already-accrued period
only reports the error and does not touch the asset or the records. -/
theorem accrual_idempotent_witness :
    hasRecord [rec0] 1 2024 1 ∧
    calculateStep env0 2024 1 ([rec0], []) assetA = (([rec0], [1]), assetA) := by
  have hdup : hasRecord [rec0] 1 2024 1 := by simp [hasRecord, rec0]
  refine ⟨hdup, ?_⟩
  have h := (accrual_idempotent env0 2024 1 [] assetA [] [] [rec0] [] ([rec0], [])
    (by simpa [assetA] using hdup) (by simp [selectedForBatch, assetA])
    (by simp [countRecords, rec0, assetA])).1
  simpa [assetA] using h

/-- C3 (code bug).  One successful batch accrual on a fresh one-month asset:
the accumulated depreciation does equal the sum of the record amounts, but the
persisted book value is 100 while
`initial_cost - incoming_depreciation - accumulated_depreciation = 0`:
the `Asset.save` hook rewrites a book value of zero back to the initial cost,
so the conservation identity fails at full depreciation. -/
theorem conservation_violated_at_full_depreciation :
    ((DepreciationRecordViewSet.calculate env0 2024 1 [] [asset100] ([], [])).1.map
        Asset.accumulated_depreciation = [100]) ∧
    ((DepreciationRecordViewSet.calculate env0 2024 1 [] [asset100] ([], [])).2.1.map
        DepreciationRecord.amount = [100]) ∧
    ((DepreciationRecordViewSet.calculate env0 2024 1 [] [asset100] ([], [])).1.map
        Asset.current_book_value = [100]) ∧
    asset100.initial_cost - asset100.incoming_depreciation - 100 = 0 ∧
    (100 : ℚ) ≠ 0 := by
  have hrun : DepreciationRecordViewSet.calculate env0 2024 1 [] [asset100] ([], []) =
      ([{ asset100 with accumulated_depreciation := 100, current_book_value := 100 }],
        ([{ asset_id := 1, period_year := 2024, period_month := 1,
            depreciation_method := DepreciationMethod.straight_line, amount := 100,
            book_value_before := 100, book_value_after := 0 }], [])) := by
    norm_num [DepreciationRecordViewSet.calculate, calculateStep, stepAmount,
      selectedForBatch, hasRecord, calculate_monthly_depreciation,
      calc_straight_line, Asset.save, q2, roundHalfAwayZ, env0, asset100]
  rw [hrun]
  norm_num [asset100]

lemma calculate_passthrough (env : BatchEnv) (y m : ℕ) (ids : List ℕ) :
    ∀ (assets : List Asset) (st : List DepreciationRecord × List ℕ),
      List.Forall₂ (fun x y' => x.status = Status.disposed → y' = x) assets
        (DepreciationRecordViewSet.calculate env y m ids assets st).1
  | [], st => by simp [DepreciationRecordViewSet.calculate]
  | a :: rest, st => by
    simp only [DepreciationRecordViewSet.calculate]
    by_cases hsel : selectedForBatch ids a
    · rw [if_pos hsel]
      refine List.Forall₂.cons ?_ (calculate_passthrough env y m ids rest _)
      intro hdisp
      rcases hsel with ⟨hact, _⟩
      rw [hdisp] at hact
      cases hact
    · rw [if_neg hsel]
      exact List.Forall₂.cons (fun _ => rfl) (calculate_passthrough env y m ids rest st)

/-- C7.  Disposal terminality: a disposed asset is never selected by a batch
accrual; both the HTTP batch and the background task leave every disposed
asset in the table untouched; and creating a second disposal for an asset
that already has one is rejected by the serializer validation, producing no
state change (the view never reaches `perform_create`). -/
theorem disposal_terminal (env : BatchEnv) (fpow : ℚ → ℚ → ℚ) (mu : ℕ → ℕ)
    (year month : ℕ) (asset_ids : List ℕ) (assets : List Asset)
    (st : List DepreciationRecord × List ℕ) (a : Asset) (existing : List ℕ)
    (dt : DisposalType) (sa : ℚ) (hd : a.status = Status.disposed) :
    ¬ selectedForBatch asset_ids a ∧
    List.Forall₂ (fun x y => x.status = Status.disposed → y = x) assets
      (DepreciationRecordViewSet.calculate env year month asset_ids assets st).1 ∧
    List.Forall₂ (fun x y => x.status = Status.disposed → y = x) assets
      (auto_calculate_depreciation fpow mu year month assets st).1 ∧
    (a.id ∈ existing → AssetDisposalViewSet.create existing a dt sa = none) := by
  refine ⟨?_, calculate_passthrough env year month asset_ids assets st,
    calculate_passthrough _ year month [] assets st, ?_⟩
  · intro hsel
    rcases hsel with ⟨hact, _⟩
    rw [hd] at hact
    cases hact
  · intro hmem
    have hv : AssetDisposalSerializer.validate_asset existing false a.id =
        Except.error () := by
      unfold AssetDisposalSerializer.validate_asset
      rw [if_pos ⟨rfl, hmem⟩]
    simp only [AssetDisposalViewSet.create, hv]

/-- A disposed asset. -/
def assetD : Asset := { assetA with id := 3, status := Status.disposed }

/-- Witness for C7: a disposed asset is not selected and its second disposal
is rejected. -/
theorem disposal_terminal_witness :
    ¬ selectedForBatch [] assetD ∧
    AssetDisposalViewSet.create [3] assetD DisposalType.liquidation 0 = none := by
  have h := disposal_terminal env0 env0.fpow (fun _ => 0) 2024 1 [] [] ([], [])
    assetD [3] DisposalType.liquidation 0 rfl
  exact ⟨h.1, h.2.2.2 (by simp [assetD, assetA])⟩

/-- An asset carrying incoming depreciation: book value 70 equals
100 - 10 - 20, consistent with its creation from
`initial_cost - incoming_depreciation` followed by accruals. -/
def assetI : Asset :=
  { id := 2
    status := Status.active
    depreciation_method := DepreciationMethod.straight_line
    initial_cost := 100
    residual_value := 0
    incoming_depreciation := 10
    current_book_value := 70
    accumulated_depreciation := 20
    useful_life_months := 60
    total_production_capacity := none }

/-- Counterexample to C5 as stated: revaluing `assetI` (positive book value
70) to fair value 70 changes the book value to 80 and stores a revaluation
amount of 10, because the code recomputes the new book value as
`initial_cost - accumulated_depreciation`, ignoring incoming depreciation. -/
theorem revaluation_roundtrip_cex :
    0 < assetI.current_book_value ∧
    (AssetRevaluationViewSet.perform_create assetI
        assetI.current_book_value).1.current_book_value ≠
      assetI.current_book_value ∧
    (AssetRevaluationViewSet.perform_create assetI
        assetI.current_book_value).2.revaluation_amount ≠ 0 := by
  norm_num [AssetRevaluationViewSet.perform_create, revaluationIndex, qE2,
    roundHalfEvenZ, Asset.save, assetI]

/-- C5 (amended).  For an asset with positive book value, no incoming
depreciation and a consistent book value
(`current_book_value = initial_cost - accumulated_depreciation`, two-decimal
stored values), revaluing to the current book value computes index 1 and
leaves `initial_cost`, `accumulated_depreciation` and `current_book_value`
unchanged, with a stored revaluation amount of 0. -/
theorem revaluation_roundtrip (a : Asset) (h0 : 0 < a.current_book_value)
    (hlock : a.current_book_value = a.initial_cost - a.accumulated_depreciation)
    (hinc : a.incoming_depreciation = 0)
    (hIi : Is2dp a.initial_cost) (hId : Is2dp a.accumulated_depreciation) :
    revaluationIndex a.current_book_value a.current_book_value = 1 ∧
    (AssetRevaluationViewSet.perform_create a a.current_book_value).1.initial_cost
      = a.initial_cost ∧
    (AssetRevaluationViewSet.perform_create a
        a.current_book_value).1.accumulated_depreciation
      = a.accumulated_depreciation ∧
    (AssetRevaluationViewSet.perform_create a
        a.current_book_value).1.current_book_value
      = a.current_book_value ∧
    (AssetRevaluationViewSet.perform_create a
        a.current_book_value).2.revaluation_amount = 0 := by
  have hidx : revaluationIndex a.current_book_value a.current_book_value = 1 := by
    simp only [revaluationIndex]
    rw [if_pos h0, div_self (ne_of_gt h0)]
  have hpc : AssetRevaluationViewSet.perform_create a a.current_book_value =
      (Asset.save a,
        { asset_id := a.id
          fair_value := a.current_book_value
          revaluation_type_upward := decide (a.current_book_value < a.current_book_value)
          old_initial_cost := a.initial_cost
          old_depreciation := a.accumulated_depreciation
          old_book_value := a.current_book_value
          new_initial_cost := a.initial_cost
          new_depreciation := a.accumulated_depreciation
          new_book_value := a.current_book_value
          revaluation_amount := a.current_book_value - a.current_book_value }) := by
    simp only [AssetRevaluationViewSet.perform_create]
    rw [hidx, mul_one, mul_one, qE2_eq_self hIi, qE2_eq_self hId, ← hlock]
  have hs : (Asset.save a).current_book_value = a.current_book_value ∧
      (Asset.save a).initial_cost = a.initial_cost ∧
      (Asset.save a).accumulated_depreciation = a.accumulated_depreciation := by
    simp only [Asset.save]
    by_cases hc : a.current_book_value = 0 ∨ a.current_book_value = a.initial_cost
    · rcases hc with hz | hi
      · exact absurd hz (ne_of_gt h0)
      · rw [if_pos (Or.inr hi)]
        exact ⟨by simp [hinc, ← hi], rfl, rfl⟩
    · rw [if_neg hc]
      exact ⟨rfl, rfl, rfl⟩
  rw [hpc]
  exact ⟨hidx, hs.2.1, hs.2.2, hs.1, sub_self _⟩

/-- Witness for C5 (amended): a 12000 asset with 2000 accrued and book value
10000, revalued to 10000. -/
theorem revaluation_roundtrip_witness :
    (AssetRevaluationViewSet.perform_create
        { assetA with current_book_value := 10000, accumulated_depreciation := 2000 }
        (10000 : ℚ)).1.current_book_value = 10000 := by
  have h := revaluation_roundtrip
    { assetA with current_book_value := 10000, accumulated_depreciation := 2000 }
    (by norm_num) (by norm_num [assetA]) (by norm_num [assetA])
    (by norm_num [Is2dp, assetA]) (by norm_num [Is2dp, assetA])
  exact h.2.2.2.1

/-- A disposal with nothing to write off: no accumulated depreciation, zero
book value, not a sale. -/
def disposal0 : AssetDisposal :=
  { asset_id := 1
    disposal_type := DisposalType.liquidation
    sale_amount := 0
    book_value_at_disposal := 0
    accumulated_depreciation_at_disposal := 0 }

/-- Counterexample to C6 as stated: a non-sale disposal with zero accumulated
depreciation and zero book value creates 0 entries, not 1. -/
theorem disposal_entry_counts_cex :
    disposal0.accumulated_depreciation_at_disposal = 0 ∧
    disposal0.disposal_type ≠ DisposalType.sale ∧
    (create_disposal_entries "104" "131" disposal0).length ≠ 1 := by
  refine ⟨rfl, by simp [disposal0], ?_⟩
  norm_num [create_disposal_entries, disposal0]

/-- C6 (amended).  The sale scenario (accumulated 500, book 300, sale 400)
creates exactly 3 entries; a non-sale disposal with zero accumulated
depreciation and a positive book value creates exactly 1. -/
theorem disposal_entry_counts (account_oz account_depreciation : String)
    (d e : AssetDisposal)
    (h1 : d.accumulated_depreciation_at_disposal = 500)
    (h2 : d.book_value_at_disposal = 300)
    (h3 : d.disposal_type = DisposalType.sale)
    (h4 : d.sale_amount = 400)
    (h5 : e.accumulated_depreciation_at_disposal = 0)
    (h6 : e.disposal_type ≠ DisposalType.sale)
    (h7 : 0 < e.book_value_at_disposal) :
    (create_disposal_entries account_oz account_depreciation d).length = 3 ∧
    (create_disposal_entries account_oz account_depreciation e).length = 1 := by
  constructor
  · simp only [create_disposal_entries, h1, h2, h3, h4]
    norm_num
  · simp only [create_disposal_entries, h5]
    rw [if_neg (by norm_num), if_pos h7, if_neg fun hc => h6 hc.1]
    simp

/-- The spec's sale-disposal scenario. -/
def disposalSale : AssetDisposal :=
  { asset_id := 1
    disposal_type := DisposalType.sale
    sale_amount := 400
    book_value_at_disposal := 300
    accumulated_depreciation_at_disposal := 500 }

/-- A non-sale disposal with no accumulated depreciation and a positive book
value. -/
def disposalLiq : AssetDisposal :=
  { asset_id := 2
    disposal_type := DisposalType.liquidation
    sale_amount := 0
    book_value_at_disposal := 250
    accumulated_depreciation_at_disposal := 0 }

/-- Witness for C6 (amended) at the two concrete disposals. -/
theorem disposal_entry_counts_witness :
    (create_disposal_entries "104" "131" disposalSale).length = 3 ∧
    (create_disposal_entries "104" "131" disposalLiq).length = 1 :=
  disposal_entry_counts "104" "131" disposalSale disposalLiq rfl rfl rfl rfl rfl
    (by simp [disposalLiq]) (by norm_num [disposalLiq])

end Buh
